import Mathlib

/-!
Verification of the RIA news crawler (`src/download-ria-news.py`) against its
natural-language specification.

The Python program is shallowly embedded:

* HTML documents are modelled as forests of `Node` trees; BeautifulSoup's
  `find`/`find_all`/`.text`/`.get` are modelled by pre-order traversal
  functions (`findAllNodes`, `findNode`, `Node.getText`, `Node.hrefAttr`).
  The HTML *parser* itself (`BeautifulSoup(html, "html.parser")`) is an
  external library call and is passed in as a function `soup : String → List Node`.
* NLTK's `sent_tokenize` is likewise passed in as `tok : String → List String`.
* The network is an oracle `net : Option String → HttpEvent` giving, per URL,
  either an HTTP response (any status) or a transport failure; `fetch` maps
  that to the behaviour of `aiohttp` under the source's `session.get` +
  `response.text()` (note: the source never enables `raise_for_status`, so a
  response of any status yields its body).
* The CSV sink is the `Option (List Row)` state: `none` = file not yet
  created; `some rows` = the written rows (header included).
* Exceptions are `Except`: an uncaught Python exception is `.error`.
-/

/-- An HTML node: either a text node (BeautifulSoup `NavigableString`) or an
element with a tag name, the (multi-valued) `class` attribute, an optional
`href` attribute and child nodes. Only the attributes the source reads are
modelled. -/
inductive Node where
  | text (s : String)
  | elem (tag : String) (classes : List String) (href : Option String) (children : List Node)
deriving Repr

/-- Child nodes of a node (a text node has none). -/
def Node.childNodes : Node → List Node
  | .text _ => []
  | .elem _ _ _ ch => ch

/-- The `href` attribute as `tag.get("href")` reads it: `None` when absent. -/
def Node.hrefAttr : Node → Option String
  | .text _ => none
  | .elem _ _ h _ => h

mutual

/-- BeautifulSoup's `.text`: the concatenation of all descendant strings, in
document order, with no separator. -/
def Node.getText : Node → String
  | .text s => s
  | .elem _ _ _ ch => getTextList ch

/-- Concatenated text of a list of nodes. -/
def getTextList : List Node → String
  | [] => ""
  | n :: rest => Node.getText n ++ getTextList rest

end

mutual

/-- A node and all its descendants, in document (pre-order) order. -/
def flattenNode : Node → List Node
  | .text s => [Node.text s]
  | .elem t c h ch => Node.elem t c h ch :: flattenList ch

/-- All nodes of a forest in document (pre-order) order: each node before its
descendants, earlier siblings (and their subtrees) before later ones. -/
def flattenList : List Node → List Node
  | [] => []
  | n :: rest => flattenNode n ++ flattenList rest

end

mutual

/-- The nodes of a subtree satisfying `p`, in document order. -/
def findAllNode (p : Node → Bool) : Node → List Node
  | .text s => if p (.text s) then [Node.text s] else []
  | .elem t c h ch =>
      (if p (.elem t c h ch) then [Node.elem t c h ch] else []) ++ findAllList p ch

/-- BeautifulSoup `find_all`: every node of a forest satisfying `p`, in
document order. -/
def findAllList (p : Node → Bool) : List Node → List Node
  | [] => []
  | n :: rest => findAllNode p n ++ findAllList p rest

end

/-- BeautifulSoup `find_all` on a document (a forest of top-level nodes). -/
def findAllNodes (p : Node → Bool) (ns : List Node) : List Node :=
  findAllList p ns

/-- BeautifulSoup `find`: the first matching node in document order. -/
def findNode (p : Node → Bool) (ns : List Node) : Option Node :=
  (findAllNodes p ns).head?

/-- Matcher for `find(["div", "h1"], attrs={"class": "article__title"})`. -/
def isTitleNode : Node → Bool
  | .elem t cls _ _ => (t == "div" || t == "h1") && cls.contains "article__title"
  | .text _ => false

/-- Matcher for `findAll("div", class_="article__text")`. -/
def isTextDiv : Node → Bool
  | .elem t cls _ _ => t == "div" && cls.contains "article__text"
  | .text _ => false

/-- Matcher for `find("div", class_="article__info-date")`. -/
def isInfoDate : Node → Bool
  | .elem t cls _ _ => t == "div" && cls.contains "article__info-date"
  | .text _ => false

/-- Matcher for `find_all("a", {"class": "list-item__title"})`. -/
def isListItemTitle : Node → Bool
  | .elem t cls _ _ => t == "a" && cls.contains "list-item__title"
  | .text _ => false

/-- Matcher for `container.find("a")`: any anchor element. -/
def isAnchorTag : Node → Bool
  | .elem t _ _ _ => t == "a"
  | .text _ => false

/-- `container.find("a")`: first anchor among the container's descendants
(an element's `find` searches its descendants, not the element itself). -/
def findAnchorIn (c : Node) : Option Node :=
  (findAllNodes isAnchorTag c.childNodes).head?

/-- Python `' '.join(l)`. -/
def joinSp : List String → String
  | [] => ""
  | [x] => x
  | x :: rest => x ++ " " ++ joinSp rest

/-- Splitting a character list on runs of whitespace, discarding empty
pieces; `acc` holds the characters of the piece being read, in reverse. -/
def splitWsAux : List Char → List Char → List String
  | [], acc => if acc.isEmpty then [] else [String.mk acc.reverse]
  | c :: rest, acc =>
    if c.isWhitespace then
      if acc.isEmpty then splitWsAux rest []
      else String.mk acc.reverse :: splitWsAux rest []
    else splitWsAux rest (c :: acc)

/-- Python `s.split()` with no argument: split on runs of whitespace,
discarding empty pieces. -/
def pySplit (s : String) : List String :=
  splitWsAux s.toList []

/-- Python `s.strip()`: whitespace removed from both ends. -/
def pyStrip (s : String) : String :=
  String.mk (((s.toList.dropWhile Char.isWhitespace).reverse.dropWhile Char.isWhitespace).reverse)

/-- The record `parse_article_html` builds: `{"title": …, "date": …, "text": …}`.
Any field may be `None`. -/
structure ParsedArticle where
  title : Option String
  date : Option String
  text : Option String
deriving DecidableEq, Repr

/-- The exceptions `parse_article_html` can raise: `AttributeError` from
`doc_tree.find("div", class_="article__info-date").find("a")` when the date
container is absent (`None.find`), and `IndexError` from `date_time[1]` when
the anchor's text has fewer than two whitespace-delimited tokens. -/
inductive ParseError where
  | attributeError
  | indexError
deriving DecidableEq, Repr

/-- `RiaAgencyParser.parse_article_html` (src lines 72–95). `soup` models
`BeautifulSoup(html, "html.parser")`, `tok` models `nltk.sent_tokenize`.
A bs4 `Tag` is always truthy (`Tag.__bool__` returns `True`), so the source's
`if doc_tree.find(…):` tests are modelled as `Option.isSome` matches. -/
def parse_article_html (soup : String → List Node) (tok : String → List String)
    (html : String) : Except ParseError ParsedArticle :=
  let doc_tree := soup html
  let title : Option String :=
    match findNode isTitleNode doc_tree with
    | some n => some n.getText
    | none => none
  let text : Option String :=
    match findAllNodes isTextDiv doc_tree with
    | [] => none
    | divs => some (joinSp ((tok (joinSp (divs.map Node.getText))).drop 1))
  match findNode isInfoDate doc_tree with
  | none => Except.error ParseError.attributeError
  | some container =>
    match findAnchorIn container with
    | none => Except.ok { title := title, date := none, text := text }
    | some a =>
      match pySplit (pyStrip a.getText) with
      | _ :: second :: _ => Except.ok { title := title, date := some second, text := text }
      | _ => Except.error ParseError.indexError

/-- `RiaAgencyParser._extract_urls_from_html` (src lines 97–101): the `href`
attribute of every `<a class="list-item__title">`, in document order,
duplicates kept (`tag.get("href")` is `None` when the attribute is absent). -/
def extract_urls_from_html (soup : String → List Node) (html : String) :
    List (Option String) :=
  (findAllNodes isListItemTitle (soup html)).map Node.hrefAttr

/-! ## The Fetcher -/

/-- What the network does for one GET: an HTTP response (with its status code
and body), a transport failure (`aiohttp.ClientConnectionError`: connection
refused, DNS failure, reset), or a timeout (`asyncio.TimeoutError`). -/
inductive HttpEvent where
  | response (status : Nat) (body : String)
  | connectionFailure
  | timeoutFailure
deriving DecidableEq, Repr

/-- The exceptions a `fetch` call can raise, as the callers distinguish them:
`aiohttp.ClientResponseError`, `aiohttp.ClientConnectionError`,
`asyncio.TimeoutError`. -/
inductive FetchError where
  | responseError
  | connectionError
  | timeoutError
deriving DecidableEq, Repr

/-- `RiaAgencyParser.fetch` (src lines 65–70): `session.get(url)` followed by
`await response.text()`. The source never calls `raise_for_status`, so a
response of ANY status (non-2xx included) returns its body; only transport
failures and timeouts raise. `responseError` is what an
`aiohttp.ClientResponseError` would be, but this GET produces none. -/
def fetch : HttpEvent → Except FetchError String
  | .response _ body => Except.ok body
  | .connectionFailure => Except.error FetchError.connectionError
  | .timeoutFailure => Except.error FetchError.timeoutError

/-! ## The Sink -/

/-- One CSV row: the four cells in the fixed field order. -/
abbrev Row := List String

/-- The header `csv.DictWriter(…, fieldnames=["url", "title", "date", "text"])`
writes on first use (src lines 58–61). -/
def headerRow : Row := ["url", "title", "date", "text"]

/-- How Python's `csv` writes an optional field: `None` becomes the empty
string. -/
def optCell : Option String → String
  | some s => s
  | none => ""

/-- The row written for one parsed article after `parse_res["url"] = url`
(src line 130), in the writer's field order. -/
def toRow (url : Option String) (r : ParsedArticle) : Row :=
  [optCell url, optCell r.title, optCell r.date, optCell r.text]

/-- The sink state: `none` while `self._csv_writer is None` (no file created),
`some rows` once the `writer` property has opened the file — `rows` then
starts with the header row. -/
abbrev SinkFile := Option (List Row)

/-- Src lines 133–135 together with the lazy `writer` property (src lines
54–63): an empty batch is never written (`if parsed_news:`); the first
non-empty batch creates the file and writes the header, every batch appends
its rows in order. -/
def writeBatch (file : SinkFile) (recs : List Row) : SinkFile :=
  if recs.isEmpty then file
  else
    match file with
    | none => some (headerRow :: recs)
    | some rows => some (rows ++ recs)

/-- A sequence of per-day batches submitted to the sink, in order. -/
def runBatches (batches : List (List Row)) (file : SinkFile) : SinkFile :=
  batches.foldl writeBatch file

/-! ## The Day Processor -/

/-- Python `set(news_urls)` as iterated by the list comprehension on src line
109. A CPython `set` of strings iterates in an unspecified, hash-dependent
order; the model fixes one admissible order, first occurrence. -/
def pySet (l : List (Option String)) : List (Option String) :=
  l.foldl (fun acc x => if acc.contains x then acc else acc ++ [x]) []

/-- Python dict assignment `d[k] = v` on an insertion-ordered dict: update in
place when the key exists, append otherwise. -/
def dictInsert (d : List (Option String × String)) (k : Option String) (v : String) :
    List (Option String × String) :=
  if d.any (fun p => p.1 == k) then d.map (fun p => if p.1 == k then (k, v) else p)
  else d ++ [(k, v)]

/-- The await loop over the fetch tasks (src lines 109–119): tasks were
created for `set(news_urls)` (here `uniq`) but each result is keyed by
`news_urls[i]` — the i-th element of the ORIGINAL, duplicate-bearing list.
`aiohttp.ClientResponseError` and `asyncio.TimeoutError` are caught and the
link dropped; any other exception — `aiohttp.ClientConnectionError` in
particular — is NOT caught and propagates out of the loop. -/
def fetchArticlesLoop (net : Option String → HttpEvent)
    (news_urls : List (Option String)) :
    List (Option String) → Nat → List (Option String × String) →
    Except FetchError (List (Option String × String))
  | [], _, d => Except.ok d
  | url :: rest, i, d =>
    match fetch (net url) with
    | Except.ok body =>
        fetchArticlesLoop net news_urls rest (i + 1) (dictInsert d (news_urls.getD i none) body)
    | Except.error FetchError.responseError => fetchArticlesLoop net news_urls rest (i + 1) d
    | Except.error FetchError.timeoutError => fetchArticlesLoop net news_urls rest (i + 1) d
    | Except.error FetchError.connectionError => Except.error FetchError.connectionError

/-- The await loop over the parse tasks (src lines 121–131): any parse
exception is caught (`except Exception`) and that article dropped; a success
is tagged with the dict's url key and collected, in dict order. -/
def parseArticlesLoop (soup : String → List Node) (tok : String → List String) :
    List (Option String × String) → List Row
  | [] => []
  | (url, html) :: rest =>
    match parse_article_html soup tok html with
    | Except.error _ => parseArticlesLoop soup tok rest
    | Except.ok r => toRow url r :: parseArticlesLoop soup tok rest

/-- `RiaAgencyParser._fetch_all_news_on_page` (src lines 103–137): extract the
links, fetch the deduplicated set, parse the fetched pages, write the
non-empty batch, return the batch size. An uncaught exception in the fetch
loop makes the whole call raise (`Except.error`). -/
def fetch_all_news_on_page (net : Option String → HttpEvent)
    (soup : String → List Node) (tok : String → List String)
    (file : SinkFile) (initial_html : String) : Except FetchError (SinkFile × Nat) :=
  let news_urls := extract_urls_from_html soup initial_html
  match fetchArticlesLoop net news_urls (pySet news_urls) 0 [] with
  | Except.error e => Except.error e
  | Except.ok fetched =>
    let parsed_news := parseArticlesLoop soup tok fetched
    Except.ok (writeBatch file parsed_news, parsed_news.length)

/-! ## The Crawl Driver -/

/-- `self._endpoint` (src line 28). -/
def endpoint : String := "https://ria.ru/"

/-- The index-page URL for a date: `f"{self._endpoint}/{date}"` (src line
141). -/
def indexUrl (date : String) : String := endpoint ++ "/" ++ date

/-- `RiaAgencyParser._producer` (src lines 139–160): one day at a time. The
index fetch is guarded by `except aiohttp.ClientResponseError`,
`except aiohttp.ClientConnectionError` and `except BaseException`, so ANY
index-fetch failure is logged and the day skipped. The call to
`_fetch_all_news_on_page` sits in the `else:` clause, OUTSIDE that guard: an
exception it raises propagates and aborts the whole crawl. The `Nat` threads
`self._n_downloaded`. -/
def producer (net : Option String → HttpEvent) (soup : String → List Node)
    (tok : String → List String) :
    List String → SinkFile → Nat → Except FetchError (SinkFile × Nat)
  | [], file, n => Except.ok (file, n)
  | date :: rest, file, n =>
    match fetch (net (some (indexUrl date))) with
    | Except.error _ => producer net soup tok rest file n
    | Except.ok html =>
      match fetch_all_news_on_page net soup tok file html with
      | Except.error e => Except.error e
      | Except.ok (file2, k) => producer net soup tok rest file2 (n + k)

/-! ## The DateCursor -/

/-- The dates the `while date_start <= date_end` loop of `dates_countdown`
(src lines 45–52) walks, as `datetime.date` ordinals (`date.toordinal()`:
1 = 0001-01-01). A `datetime.date` is isomorphic to its ordinal — comparison
is ordinal comparison and `+ timedelta(days=1)` is ordinal + 1. -/
def datesSeq (date_start date_end : Nat) : List Nat :=
  if _h : date_start ≤ date_end then date_start :: datesSeq (date_start + 1) date_end
  else []
termination_by date_end + 1 - date_start
decreasing_by omega

/-- Gregorian calendar conversion from a `datetime.date` ordinal to
(year, month, day), the standard era-based civil-from-days computation
(`date.fromordinal`). -/
def civilFromOrdinal (n : Nat) : Nat × Nat × Nat :=
  let z := n + 305
  let era := z / 146097
  let doe := z % 146097
  let yoe := (doe - doe / 1460 + doe / 36524 - doe / 146096) / 365
  let doy := doe - (365 * yoe + yoe / 4 - yoe / 100)
  let mp := (5 * doy + 2) / 153
  let d := doy - (153 * mp + 2) / 5 + 1
  let m := if mp < 10 then mp + 3 else mp - 9
  (if m ≤ 2 then yoe + era * 400 + 1 else yoe + era * 400, m, d)

/-- A decimal digit character. -/
def digitChar (k : Nat) : Char := Char.ofNat (48 + k)

/-- Fixed-width `YYYYMMDD` rendering of a (year, month, day) triple.
`datetime.date` years lie in 1..9999 (`MINYEAR`/`MAXYEAR`) and CPython
documents `%Y` as zero-padded to four digits, `%m`/`%d` to two, so on the
whole `datetime.date` domain this equals `strftime("%Y%m%d")`. -/
def fmtYmd : Nat × Nat × Nat → String
  | (y, m, d) =>
    String.mk [digitChar (y / 1000 % 10), digitChar (y / 100 % 10),
      digitChar (y / 10 % 10), digitChar (y % 10),
      digitChar (m / 10 % 10), digitChar (m % 10),
      digitChar (d / 10 % 10), digitChar (d % 10)]

/-- `date_start.strftime("%Y%m%d")` (src line 51) on an ordinal. -/
def strftimeYmd (n : Nat) : String := fmtYmd (civilFromOrdinal n)

/-- `RiaAgencyParser.dates_countdown` (src lines 45–52): the generator's full
output, one `YYYYMMDD` string per date of the inclusive range. -/
def dates_countdown (from_date to_date : Nat) : List String :=
  (datesSeq from_date to_date).map strftimeYmd

/-! ## Concrete scenario material

Concrete oracles and documents used by the closed evaluation theorems and
witnesses below. -/

/-- A concrete stand-in for `sent_tokenize` in closed instances (the claims
hold for every tokenizer). -/
def tokWords : String → List String := fun s => pySplit s

/-- An article page: title "Title A", date anchor "Mon 10:00", no body. -/
def docTitleA : List Node :=
  [Node.elem "h1" ["article__title"] none [Node.text "Title A"],
   Node.elem "div" ["article__info-date"] none
     [Node.elem "a" [] none [Node.text "Mon 10:00"]]]

/-- An article page: title "Title B", date anchor "Wed 11:00", no body. -/
def docTitleB : List Node :=
  [Node.elem "h1" ["article__title"] none [Node.text "Title B"],
   Node.elem "div" ["article__info-date"] none
     [Node.elem "a" [] none [Node.text "Wed 11:00"]]]

/-- An index page listing links "A", "A" (a duplicate) and "B". -/
def docIndexDup : List Node :=
  [Node.elem "a" ["list-item__title"] (some "A") [],
   Node.elem "a" ["list-item__title"] (some "A") [],
   Node.elem "a" ["list-item__title"] (some "B") []]

/-- An index page listing three distinct links "A", "B", "C". -/
def docIndex3 : List Node :=
  [Node.elem "a" ["list-item__title"] (some "A") [],
   Node.elem "a" ["list-item__title"] (some "B") [],
   Node.elem "a" ["list-item__title"] (some "C") []]

/-- HTML parser oracle for the duplicate-link scenario. -/
def soupDup : String → List Node := fun s =>
  if s = "htmlA" then docTitleA
  else if s = "htmlB" then docTitleB
  else if s = "indexDup" then docIndexDup
  else []

/-- Network oracle for the duplicate-link scenario: every fetch succeeds;
link "A" serves `htmlA`, link "B" serves `htmlB`. -/
def netDup : Option String → HttpEvent := fun u =>
  if u = some "A" then HttpEvent.response 200 "htmlA"
  else if u = some "B" then HttpEvent.response 200 "htmlB"
  else HttpEvent.response 200 "indexDup"

/-- HTML parser oracle for the three-link scenario. -/
def soup3 : String → List Node := fun s =>
  if s = "htmlA" then docTitleA
  else if s = "htmlC" then docTitleB
  else if s = "index3" then docIndex3
  else []

/-- Network oracle for the three-link scenario: fetching link "B" fails with
a connection error (connection refused / DNS failure); links "A" and "C" and
the index page succeed. -/
def netConnB : Option String → HttpEvent := fun u =>
  if u = some "A" then HttpEvent.response 200 "htmlA"
  else if u = some "B" then HttpEvent.connectionFailure
  else if u = some "C" then HttpEvent.response 200 "htmlC"
  else HttpEvent.response 200 "index3"

/-- HTML parser oracle returning an empty document (no date container). -/
def soupEmptyDoc : String → List Node := fun _ => []

/-- A date container with text but no anchor element inside. -/
def dateContainerNoAnchor : Node :=
  Node.elem "div" ["article__info-date"] none [Node.text "Wed 11:00"]

/-- HTML parser oracle returning a document whose date container holds no
anchor. -/
def soupNoAnchor : String → List Node := fun _ => [dateContainerNoAnchor]

/-- Network oracle where every fetch fails with a connection error. -/
def netAllConnFail : Option String → HttpEvent := fun _ => HttpEvent.connectionFailure

/-! ## Supporting lemmas -/

mutual

/-- On one subtree, `find_all` is the document-order node list filtered by the
matcher. -/
theorem findAllNode_eq_filter (p : Node → Bool) : (n : Node) →
    findAllNode p n = (flattenNode n).filter p
  | .text s => by
    cases hp : p (.text s) <;> simp [findAllNode, flattenNode, hp]
  | .elem t c h ch => by
    cases hp : p (.elem t c h ch) <;>
      simp [findAllNode, flattenNode, hp, findAllList_eq_filter p ch]

/-- On a forest, `find_all` is the document-order node list filtered by the
matcher. -/
theorem findAllList_eq_filter (p : Node → Bool) : (ns : List Node) →
    findAllList p ns = (flattenList ns).filter p
  | [] => rfl
  | n :: rest => by
    simp [findAllList, flattenList, List.filter_append,
      findAllNode_eq_filter p n, findAllList_eq_filter p rest]

end

/-- The `text` field of any record `parse_article_html` returns is exactly
what the body block (src lines 80–85) computes from the `article__text`
divs. -/
theorem parse_text_field (soup : String → List Node) (tok : String → List String)
    (html : String) (r : ParsedArticle)
    (h : parse_article_html soup tok html = Except.ok r) :
    r.text = (match findAllNodes isTextDiv (soup html) with
      | [] => none
      | divs => some (joinSp ((tok (joinSp (divs.map Node.getText))).drop 1))) := by
  revert h
  simp only [parse_article_html]
  split
  · intro h; cases h
  · split
    · intro h
      cases h
      rfl
    · split
      · intro h
        cases h
        rfl
      · intro h; cases h

/-- The date loop walks exactly the ordinals `from`, `from + 1`, …, `to`. -/
theorem datesSeq_eq_range (a b : Nat) : datesSeq a b = (List.range (b + 1 - a)).map (a + ·) := by
  induction a, b using datesSeq.induct with
  | case1 a b h ih =>
    rw [datesSeq]
    simp only [h, dite_true, dif_pos]
    rw [ih]
    have hn : b + 1 - a = (b - a) + 1 := by omega
    rw [hn, List.range_succ_eq_map]
    simp only [List.map_cons, List.map_map, Nat.add_zero]
    have h2 : b + 1 - (a + 1) = b - a := by omega
    rw [h2]
    congr 1
    apply List.map_congr_left
    intro i _
    simp only [Function.comp]
    omega
  | case2 a b h =>
    rw [datesSeq]
    simp only [h, dite_false, dif_neg]
    have : b + 1 - a = 0 := by omega
    simp [this]

/-- Digit characters are digits. -/
theorem digitChar_isDigit : ∀ j, j < 10 → (digitChar j).isDigit = true := by decide

/-- Every formatted date string has exactly 8 characters. -/
theorem strftimeYmd_length (n : Nat) : (strftimeYmd n).length = 8 := by
  unfold strftimeYmd fmtYmd
  obtain ⟨y, m, d⟩ := civilFromOrdinal n
  rfl

/-- Every character of a formatted date string is a decimal digit. -/
theorem strftimeYmd_digits (n : Nat) : ∀ ch ∈ (strftimeYmd n).toList, ch.isDigit := by
  unfold strftimeYmd fmtYmd
  obtain ⟨y, m, d⟩ := civilFromOrdinal n
  intro ch hch
  have hch2 : ch ∈ [digitChar (y / 1000 % 10), digitChar (y / 100 % 10),
      digitChar (y / 10 % 10), digitChar (y % 10), digitChar (m / 10 % 10),
      digitChar (m % 10), digitChar (d / 10 % 10), digitChar (d % 10)] := hch
  fin_cases hch2 <;>
    exact digitChar_isDigit _ (Nat.mod_lt _ (by norm_num))

/-- Once the sink's file exists, later batches append their rows in order. -/
theorem runBatches_some (batches : List (List Row)) : ∀ rows : List Row,
    runBatches batches (some rows) = some (rows ++ batches.flatten) := by
  induction batches with
  | nil => intro rows; simp [runBatches]
  | cons b rest ih =>
    intro rows
    by_cases hb : b.isEmpty
    · have hb2 : b = [] := List.isEmpty_iff.mp hb
      simp [runBatches, writeBatch, hb, hb2] at ih ⊢
      exact ih rows
    · simp only [runBatches, List.foldl_cons, writeBatch, hb, if_neg, Bool.false_eq_true,
        not_false_iff, ite_false]
      simp only [runBatches] at ih
      rw [ih (rows ++ b)]
      simp [List.flatten]

/-! ## The claims -/

/-- Claim C1 (code_bug evaluation): partial-failure isolation fails for
transport errors. A day's index page lists three distinct links; fetching
link "B" raises `aiohttp.ClientConnectionError` (connection refused / DNS
failure). The source's article-fetch loop catches only
`aiohttp.ClientResponseError` and `asyncio.TimeoutError` (src lines 114–117),
so the exception propagates: `_fetch_all_news_on_page` raises instead of
returning the count 2 the claim requires, and — because `_producer` calls it
in the `else:` clause, outside its `try` — the whole crawl aborts rather than
proceeding with links "A" and "C". -/
theorem article_connection_error_aborts_crawl :
    extract_urls_from_html soup3 "index3" = [some "A", some "B", some "C"] ∧
    fetch (netConnB (some "B")) = Except.error FetchError.connectionError ∧
    fetch_all_news_on_page netConnB soup3 tokWords none "index3" =
      Except.error FetchError.connectionError ∧
    producer netConnB soup3 tokWords ["20130101"] none 0 =
      Except.error FetchError.connectionError :=
  ⟨rfl, rfl, rfl, rfl⟩

/-- Claim C2 (code_bug evaluation): records are not reliably tagged with
their originating URL. The index page lists links "A", "A", "B"; both
articles are served and parse fine ("A" to title "Title A", "B" to
"Title B"). Fetch tasks are created for `set(news_urls)` = {"A", "B"} but
each result is stored under `news_urls[i]` — the i-th entry of the original
duplicate-bearing list (src line 119) — so article "B"'s page is keyed by
url "A": the single written record pairs url "A" with the title and date
parsed from the page fetched at "B", and "B"'s article is lost. -/
theorem duplicate_links_mistag_url :
    extract_urls_from_html soupDup "indexDup" = [some "A", some "A", some "B"] ∧
    parse_article_html soupDup tokWords "htmlA" =
      Except.ok { title := some "Title A", date := some "10:00", text := none } ∧
    parse_article_html soupDup tokWords "htmlB" =
      Except.ok { title := some "Title B", date := some "11:00", text := none } ∧
    fetch_all_news_on_page netDup soupDup tokWords none "indexDup" =
      Except.ok (some [headerRow, ["A", "Title B", "11:00", ""]], 1) :=
  ⟨rfl, rfl, rfl, rfl⟩

/-- Claim C3 (amended): `fetch` returns the full response body as text for
EVERY HTTP response, its status notwithstanding — the source never enables
`raise_for_status`, so a non-2xx response is not a failure of the fetch
operation. Network/connection failure and timeout are each a distinct,
reportable failure. -/
theorem fetch_spec (status : Nat) (body : String) :
    fetch (HttpEvent.response status body) = Except.ok body ∧
    fetch HttpEvent.connectionFailure = Except.error FetchError.connectionError ∧
    fetch HttpEvent.timeoutFailure = Except.error FetchError.timeoutError ∧
    FetchError.connectionError ≠ FetchError.timeoutError :=
  ⟨rfl, rfl, rfl, by decide⟩

/-- Claim C3 (counterexample): a 404 response does not make `fetch` fail —
it returns the error page's body, contradicting "for every response with a
non-2xx status, fetch fails rather than returning the body". -/
theorem fetch_non2xx_returns_body :
    fetch (HttpEvent.response 404 "error page") = Except.ok "error page" := rfl

/-- Claim C4: on any article HTML whose date container
(`div.article__info-date`) is absent, `parse_article_html` fails with a
structural error (the `AttributeError` raised by `None.find("a")`) — it does
not return a record with a null or empty date. -/
theorem parse_missing_date_container_fails (soup : String → List Node)
    (tok : String → List String) (html : String)
    (h : findNode isInfoDate (soup html) = none) :
    parse_article_html soup tok html = Except.error ParseError.attributeError := by
  simp only [parse_article_html, h]

/-- Claim C4 witness: on the empty document the date container is absent and
parsing fails with the structural error. -/
theorem parse_missing_date_container_witness :
    findNode isInfoDate (soupEmptyDoc "page") = none ∧
    parse_article_html soupEmptyDoc tokWords "page" = Except.error ParseError.attributeError :=
  ⟨rfl, parse_missing_date_container_fails soupEmptyDoc tokWords "page" rfl⟩

/-- Claim C5: for every article HTML and every tokenizer, if no
`div.article__text` elements are present, any record `parse_article_html`
returns has `text = null`; if some are present, the returned body is the
element texts joined, sentence-segmented, with the very first sentence
overall dropped and the remaining sentences rejoined by single spaces. -/
theorem parse_body_text_spec (soup : String → List Node) (tok : String → List String)
    (html : String) :
    (findAllNodes isTextDiv (soup html) = [] →
      ∀ r, parse_article_html soup tok html = Except.ok r → r.text = none) ∧
    (findAllNodes isTextDiv (soup html) ≠ [] →
      ∀ r, parse_article_html soup tok html = Except.ok r →
        r.text = some (joinSp ((tok (joinSp
          ((findAllNodes isTextDiv (soup html)).map Node.getText))).drop 1))) := by
  constructor
  · intro hd r h
    rw [parse_text_field soup tok html r h, hd]
  · intro hd r h
    rw [parse_text_field soup tok html r h]
    cases hdivs : findAllNodes isTextDiv (soup html) with
    | nil => exact absurd hdivs hd
    | cons a l =>
      simp only [hdivs]

/-- Claim C6: for every ordinal pair, if `from ≤ to` the date cursor yields
exactly `to − from + 1` dates; if `from > to` it yields the empty sequence
(and, being a total function, never raises). The underlying dates are
strictly ascending and every yielded string is an 8-character digit string
(`YYYYMMDD`). -/
theorem dates_countdown_spec (f t : Nat) :
    dates_countdown f t = (datesSeq f t).map strftimeYmd ∧
    (f ≤ t → (dates_countdown f t).length = t - f + 1) ∧
    (t < f → dates_countdown f t = []) ∧
    List.Pairwise (· < ·) (datesSeq f t) ∧
    (∀ s ∈ dates_countdown f t, s.length = 8 ∧ ∀ ch ∈ s.toList, ch.isDigit) := by
  refine ⟨rfl, ?_, ?_, ?_, ?_⟩
  · intro h
    simp only [dates_countdown, List.length_map, datesSeq_eq_range, List.length_range]
    omega
  · intro h
    have : t + 1 - f = 0 := by omega
    simp [dates_countdown, datesSeq_eq_range, this]
  · rw [datesSeq_eq_range]
    exact List.Pairwise.map _ (fun i j hij => by omega) (List.pairwise_lt_range _)
  · intro s hs
    simp only [dates_countdown, List.mem_map] at hs
    obtain ⟨n, _, rfl⟩ := hs
    exact ⟨strftimeYmd_length n, strftimeYmd_digits n⟩

/-- Claim C7: for every date whose index-page fetch fails with ANY fetcher
error, the day contributes nothing (no sink write, no counter change — zero
articles processed) and the Crawl Driver proceeds exactly as if starting at
the next date; the failure never aborts the overall crawl. -/
theorem index_fetch_failure_skips_day (net : Option String → HttpEvent)
    (soup : String → List Node) (tok : String → List String) (d : String)
    (rest : List String) (file : SinkFile) (n : Nat) (e : FetchError)
    (h : fetch (net (some (indexUrl d))) = Except.error e) :
    producer net soup tok (d :: rest) file n = producer net soup tok rest file n := by
  simp only [producer, h]

/-- Claim C7 witness: a day whose index fetch fails with a connection error
is skipped, and a one-day crawl made of it ends normally with zero
articles. -/
theorem index_fetch_failure_witness :
    producer netAllConnFail soupEmptyDoc tokWords ["20130101"] none 0 =
      producer netAllConnFail soupEmptyDoc tokWords [] none 0 ∧
    producer netAllConnFail soupEmptyDoc tokWords [] none 0 = Except.ok (none, 0) :=
  ⟨index_fetch_failure_skips_day netAllConnFail soupEmptyDoc tokWords "20130101" [] none 0
    FetchError.connectionError rfl, rfl⟩

/-- Claim C8 (amended): the sink's file is created — header first — on the
first NON-EMPTY batch (an empty batch is skipped by `if parsed_news:` and
touches nothing). When at least one batch is non-empty, the file is exactly
one header row followed by the batches' rows in submission order, so the
data-row count is the sum of the batch sizes; when every batch is empty no
file is created at all. -/
theorem writer_lazy_spec (batches : List (List Row)) :
    (batches.flatten = [] → runBatches batches none = none) ∧
    (batches.flatten ≠ [] → runBatches batches none = some (headerRow :: batches.flatten)) ∧
    (headerRow :: batches.flatten).length = 1 + (batches.map List.length).sum := by
  refine ⟨?_, ?_, ?_⟩
  · induction batches with
    | nil => intro _; rfl
    | cons b rest ih =>
      intro h
      simp only [List.flatten_cons, List.append_eq_nil] at h
      simp only [runBatches, List.foldl_cons, writeBatch, List.isEmpty_iff.mpr h.1, ite_true,
        if_pos]
      exact ih h.2
  · induction batches with
    | nil => intro h; exact absurd rfl h
    | cons b rest ih =>
      intro h
      by_cases hb : b = []
      · simp only [List.flatten_cons, hb, List.nil_append] at h ⊢
        simp only [runBatches, List.foldl_cons, writeBatch, List.isEmpty_iff.mpr hb, ite_true,
          if_pos]
        exact ih h
      · have hb2 : b.isEmpty = false := by simpa using hb
        simp only [runBatches, List.foldl_cons, writeBatch, hb2, Bool.false_eq_true, if_false,
          ite_false]
        have h3 := runBatches_some rest (headerRow :: b)
        simp only [runBatches] at h3
        rw [h3]
        simp [List.flatten]
  · simp [List.length_flatten]
    omega

/-- Claim C8 (counterexample): submitting only empty batches produces no
file at all — not a file holding the header row — because the lazy writer is
never touched. -/
theorem sink_all_empty_batches_no_file :
    runBatches [[], []] none = none ∧ runBatches [[], []] none ≠ some [headerRow] :=
  ⟨rfl, by decide⟩

/-- Claim C8 witness: batches of sizes 2 and 0 yield the header plus exactly
the two data rows, in submission order. -/
theorem writer_lazy_witness :
    runBatches [[["u1", "t1", "d1", "x1"], ["u2", "t2", "d2", "x2"]], []] none =
      some [headerRow, ["u1", "t1", "d1", "x1"], ["u2", "t2", "d2", "x2"]] :=
  (writer_lazy_spec [[["u1", "t1", "d1", "x1"], ["u2", "t2", "d2", "x2"]], []]).2.1
    (by decide)

/-- Claim C9: `extract_links` returns the `href` of every anchor matching the
`list-item__title` marker, in document order, duplicates kept: it equals the
document-order node list filtered by the marker, mapped to `href`; with zero
matching anchors it is the empty sequence (not an error), and with N matching
anchors it has exactly N entries. -/
theorem extract_links_spec (soup : String → List Node) (html : String) :
    extract_urls_from_html soup html =
      ((flattenList (soup html)).filter isListItemTitle).map Node.hrefAttr ∧
    (findAllNodes isListItemTitle (soup html) = [] → extract_urls_from_html soup html = []) ∧
    (extract_urls_from_html soup html).length =
      ((flattenList (soup html)).filter isListItemTitle).length := by
  refine ⟨?_, ?_, ?_⟩
  · simp [extract_urls_from_html, findAllNodes, findAllList_eq_filter]
  · intro h
    simp [extract_urls_from_html, h]
  · simp [extract_urls_from_html, findAllNodes, findAllList_eq_filter]

/-- Claim C10: on any article HTML whose date container is present but holds
no anchor element, `parse_article_html` succeeds and returns `date = null`
(the `if … .find("a"):` test is falsy only through the `else` branch); only
the container's own absence, not the anchor's, raises the structural
error. -/
theorem parse_missing_date_anchor_null (soup : String → List Node)
    (tok : String → List String) (html : String) (c : Node)
    (hc : findNode isInfoDate (soup html) = some c)
    (ha : findAnchorIn c = none) :
    Except.map ParsedArticle.date (parse_article_html soup tok html) = Except.ok none := by
  simp only [parse_article_html, hc, ha, Except.map]

/-- Claim C10 witness: a date container with text but no anchor yields a
successful parse with a null date. -/
theorem parse_missing_date_anchor_witness :
    findNode isInfoDate (soupNoAnchor "page") = some dateContainerNoAnchor ∧
    findAnchorIn dateContainerNoAnchor = none ∧
    Except.map ParsedArticle.date (parse_article_html soupNoAnchor tokWords "page") =
      Except.ok none :=
  ⟨rfl, rfl, parse_missing_date_anchor_null soupNoAnchor tokWords "page"
    dateContainerNoAnchor rfl rfl⟩
